import Mathlib

/-!
Verification development for the Salesforce Data Cloud MCP server
(`src/salesforce_mcp_server.py`).  The Python code is shallowly embedded:
pure string manipulation becomes Lean functions on `String`; each HTTP
interaction is abstracted as a value or a function supplied by the
environment (the "server behaviour"); `while` loops become fuel-indexed
structural recursion, where a result of `none` means the loop has not yet
terminated after `fuel` iterations (so the real program terminates on a
given behaviour iff some fuel yields `some`); a Python exception that
propagates out of a function is an `Except.error` carrying the exception's
message string.
-/

namespace DCMCP

/-! ## Python string primitives

Faithful models of the Python string operations the source uses, over
ASCII data (every literal the source manipulates is ASCII).  They are
written as structural recursion on `List Char` so that concrete instances
reduce inside the kernel. -/

/-- Cons a character onto the first piece of a split (creating a piece if
    there is none yet). -/
def consHead (c : Char) : List (List Char) → List (List Char)
  | [] => [[c]]
  | p :: ps => (c :: p) :: ps

/-- Whether the first list is a prefix of the second. -/
def listPrefixOf : List Char → List Char → Bool
  | [], _ => true
  | _ :: _, [] => false
  | a :: as, b :: bs => a == b && listPrefixOf as bs

/-- Python `s.startswith(pre)`. -/
def pyStartsWith (s pre : String) : Bool :=
  listPrefixOf pre.data s.data

/-- Drop `pre` from the front of `l`, if `pre` is a prefix of `l`. -/
def dropPrefixOf? : List Char → List Char → Option (List Char)
  | [], l => some l
  | _ :: _, [] => none
  | a :: as, b :: bs => if a == b then dropPrefixOf? as bs else none

/-- Worker for `pySplitOn`: split `l` at each non-overlapping occurrence of
    the non-empty separator `sep`, scanning left to right.  `fuel` bounds the
    recursion; `l.length` fuel always suffices because every step consumes at
    least one character. -/
def splitOnFuel (sep : List Char) : Nat → List Char → List (List Char)
  | _, [] => [[]]
  | 0, l => [l]
  | fuel + 1, c :: rest =>
    match dropPrefixOf? sep (c :: rest) with
    | some tail => [] :: splitOnFuel sep fuel tail
    | none => consHead c (splitOnFuel sep fuel rest)

/-- Python `s.split(sep)` for a non-empty separator: pieces between
    non-overlapping occurrences of `sep`, empty pieces kept. -/
def pySplitOn (s sep : String) : List String :=
  if sep == "" then [s]
  else (splitOnFuel sep.data s.data.length s.data).map String.mk

/-- Split at every character satisfying `p`, keeping empty pieces. -/
def splitCharsBy (p : Char → Bool) : List Char → List (List Char)
  | [] => [[]]
  | c :: rest => if p c then [] :: splitCharsBy p rest else consHead c (splitCharsBy p rest)

/-- Python whitespace characters recognised by `str.split()` (ASCII range). -/
def pyIsSpace (c : Char) : Bool :=
  c == ' ' || c == '\t' || c == '\n' || c == '\r' || c == Char.ofNat 11 || c == Char.ofNat 12

/-- Python `s.split()` with no separator: split on whitespace, discarding
    empty pieces. -/
def pySplitWs (s : String) : List String :=
  ((splitCharsBy pyIsSpace s.data).filter (fun p => !p.isEmpty)).map String.mk

/-- Python `sep.join(parts)`. -/
def joinWith (sep : String) : List String → String
  | [] => ""
  | [x] => x
  | x :: y :: ys => x ++ sep ++ joinWith sep (y :: ys)

/-- Python `s.upper()` restricted to ASCII letters (the source only ever
    uppercases ASCII SQL text). -/
def pyUpper (s : String) : String :=
  String.mk (s.data.map (fun c =>
    if 97 ≤ c.toNat && c.toNat ≤ 122 then Char.ofNat (c.toNat - 32) else c))

/-- Python `s.replace(old, new, 1)` for a non-empty `old`: replace the first
    occurrence only. -/
def replaceFirst (s old new : String) : String :=
  match pySplitOn s old with
  | [] => s
  | [_] => s
  | x :: rest => x ++ new ++ joinWith old rest

/-- Python `sub in s` (substring containment). -/
def pyIn (sub s : String) : Bool :=
  sub == "" || (pySplitOn s sub).length != 1

/-- Python truthiness of an optional string (`None` and `""` are falsy). -/
def optTruthy : Option String → Bool
  | none => false
  | some s => s != ""

/-! ## Dialect translator

`_convert_sql_to_soql` (src/salesforce_mcp_server.py lines 704-721),
translated statement by statement.  Note that the `replace` is applied
before the `len(parts) == 2` check, so a failed parse still returns the
partially rewritten string, and that `select_words[2]` indexes the word
list of the string in which `"SELECT TOP "` was already collapsed to
`"SELECT "`. -/

def convert_sql_to_soql (query : String) : String :=
  if pyStartsWith (pyUpper query) "SELECT TOP" then
    let q1 := replaceFirst query "SELECT TOP " "SELECT "
    match pySplitOn q1 " FROM " with
    | [select_part, from_part] =>
      let select_words := pySplitWs select_part
      if select_words.length > 2 then
        let limit_num := select_words.getD 2 ""
        let remaining_select := joinWith " " (select_words.drop 3)
        "SELECT " ++ remaining_select ++ " FROM " ++ from_part ++ " LIMIT " ++ limit_num
      else q1
    | _ => q1
  else query

/-- Claim C1: the translator is claimed to rewrite
    `SELECT TOP <n> <cols> FROM <rest>` to `SELECT <cols> FROM <rest> LIMIT <n>`
    and be the identity elsewhere.  Evaluating the source's function at
    `"SELECT TOP 5 Id FROM Account"` instead yields
    `"SELECT  FROM Account LIMIT Id"`: the `replace` of `"SELECT TOP "` by
    `"SELECT "` shifts the word list one position left, so `select_words[2]`
    picks the first column (`Id`) as the limit and drops the column list.
    A lowercase instance of the same shape is returned unchanged, because the
    `replace`/`split` steps are case-sensitive even though the prefix test is
    case-insensitive. -/
theorem c1_convert_sql_to_soql_code_bug :
    convert_sql_to_soql "SELECT TOP 5 Id FROM Account" = "SELECT  FROM Account LIMIT Id"
      ∧ convert_sql_to_soql "SELECT TOP 5 Id FROM Account" ≠ "SELECT Id FROM Account LIMIT 5"
      ∧ convert_sql_to_soql "select top 5 Id from Account" = "select top 5 Id from Account" := by
  refine ⟨by decide, by decide, by decide⟩

/-! ## Transport data model

One response of each API generation, as far as `_query_data_cloud` reads
it.  An absent JSON field is `none`. -/

/-- A response of the Data Cloud Query API V2 (`/api/v2/query`), holding the
    fields read by `_query_data_cloud`: the HTTP status, the optional `data`
    row list and the optional `nextBatchId` continuation token. -/
structure BatchResp (α : Type) where
  status : Nat
  data : Option (List α)
  nextBatchId : Option String
  deriving DecidableEq

/-- A response of the legacy SOQL query API, holding the fields read by the
    fallback loop of `_query_data_cloud`: HTTP status, optional `records`,
    optional `done` flag, optional `nextRecordsUrl`, and the body text used
    in the error message when the status is not 200. -/
structure SoqlResp (α : Type) where
  status : Nat
  records : Option (List α)
  done : Option Bool
  nextRecordsUrl : Option String
  errorText : String
  deriving DecidableEq

/-! ## Paginator: batchId loop

`_query_data_cloud` lines 634-646.  `server k` is the response to the k-th
follow-up `GET {dc_url}?batchId={id}`.  The loop `while batch_id:` runs
while the token is truthy; a non-200 follow-up `break`s, keeping the rows
accumulated so far; otherwise `data` (when present) is appended and the
token is replaced by the new `nextBatchId`.  `none` means the loop is still
running after `fuel` iterations. -/

def drainBatch (server : Nat → BatchResp α) : Nat → Nat → List α → Option String → Option (List α)
  | 0, _, acc, bid => if optTruthy bid then none else some acc
  | fuel + 1, k, acc, bid =>
    if optTruthy bid then
      if (server k).status != 200 then some acc
      else drainBatch server fuel (k + 1) (acc ++ (server k).data.getD []) (server k).nextBatchId
    else some acc

/-! ## Paginator: nextRecordsUrl loop

`_query_data_cloud` lines 677-695.  `server url` is the response to
`GET url`; a relative `nextRecordsUrl` (starting with `/`) is resolved
against the instance URL first.  A non-200 response raises
`SOQL Query failed: ...`; otherwise `records` is appended, and the loop
ends when `done` (defaulting to true) holds, or continues at
`nextRecordsUrl`. -/

/-- Resolve a possibly relative URL against the instance base URL, as the
    `if next_url.startswith('/')` branch does. -/
def resolveUrl (inst url : String) : String :=
  if pyStartsWith url "/" then inst ++ url else url

/-- The response fetched for the current `next_url` value. -/
def soqlGet (inst : String) (server : String → SoqlResp α) (nextUrl : Option String) : SoqlResp α :=
  server (resolveUrl inst (nextUrl.getD ""))

def drainSoql (inst : String) (server : String → SoqlResp α) :
    Nat → List α → Option String → Option (Except String (List α))
  | 0, acc, nextUrl => if optTruthy nextUrl then none else some (Except.ok acc)
  | fuel + 1, acc, nextUrl =>
    if optTruthy nextUrl then
      if (soqlGet inst server nextUrl).status != 200 then
        some (Except.error ("SOQL Query failed: " ++ (soqlGet inst server nextUrl).errorText))
      else
        if (soqlGet inst server nextUrl).done.getD true then
          some (Except.ok (acc ++ (soqlGet inst server nextUrl).records.getD []))
        else
          drainSoql inst server fuel (acc ++ (soqlGet inst server nextUrl).records.getD [])
            (soqlGet inst server nextUrl).nextRecordsUrl
    else some (Except.ok acc)

/-- The per-page `records` lists the SOQL loop reads, in the order the pages
    are received.  This follows the spec's description of the `NEXT_URL`
    drain; it is compared with `drainSoql` (the source's loop) below. -/
def soqlPages (inst : String) (server : String → SoqlResp α) :
    Nat → Option String → Option (Except String (List (List α)))
  | 0, nextUrl => if optTruthy nextUrl then none else some (Except.ok [])
  | fuel + 1, nextUrl =>
    if optTruthy nextUrl then
      if (soqlGet inst server nextUrl).status != 200 then
        some (Except.error ("SOQL Query failed: " ++ (soqlGet inst server nextUrl).errorText))
      else
        if (soqlGet inst server nextUrl).done.getD true then
          some (Except.ok [(soqlGet inst server nextUrl).records.getD []])
        else
          match soqlPages inst server fuel (soqlGet inst server nextUrl).nextRecordsUrl with
          | none => none
          | some (Except.error e) => some (Except.error e)
          | some (Except.ok ps) => some (Except.ok ((soqlGet inst server nextUrl).records.getD [] :: ps))
    else some (Except.ok [])

/-! ## Claim C2: pagination is unbounded -/

/-- A misbehaving analytics server that answers every follow-up batch
    request with HTTP 200 and the same non-empty continuation token. -/
def c2ConstServer : Nat → BatchResp Nat := fun _ => ⟨200, some [], some "b1"⟩

theorem c2_const_server_spins (fuel : Nat) :
    ∀ (k : Nat) (acc : List Nat), drainBatch c2ConstServer fuel k acc (some "b1") = none := by
  induction fuel with
  | zero => intro k acc; simp [drainBatch, optTruthy]
  | succ fuel ih => intro k acc; simpa [drainBatch, optTruthy, c2ConstServer] using ih (k + 1) acc

/-- Claim C2 is false of the code: no maximum page count is enforced and no
    `PaginationLimitExceeded` failure exists.  Against a server that returns
    a non-empty `nextBatchId` on every response, the batch drain loop of
    `_query_data_cloud` never terminates: no number of loop iterations
    (`fuel`) produces any result at all — rather than failing fast with
    `PaginationLimitExceeded`, the code loops forever. -/
theorem c2_counterexample :
    ¬ ∃ (fuel : Nat) (rows : List Nat), drainBatch c2ConstServer fuel 0 [] (some "b1") = some rows := by
  rintro ⟨fuel, rows, h⟩
  rw [c2_const_server_spins fuel 0 []] at h
  exact Option.noConfusion h

/-- Claim C2 amended: the pagination loops are NOT bounded by any maximum
    page count and never fail with `PaginationLimitExceeded`; the batch
    drain terminates exactly when the current token is falsy or the server
    eventually answers a follow-up request with a non-200 status or a falsy
    `nextBatchId` (returning the rows accumulated so far), and loops forever
    otherwise. -/
theorem c2_amended_drain_terminates_only_on_server_stop (server : Nat → BatchResp α) :
    ∀ (fuel k : Nat) (acc : List α) (bid : Option String),
      (optTruthy bid = false
          ∨ ∃ j, k ≤ j ∧ j < k + fuel
              ∧ ((server j).status ≠ 200 ∨ optTruthy (server j).nextBatchId = false)) →
      drainBatch server fuel k acc bid ≠ none := by
  intro fuel
  induction fuel with
  | zero =>
    intro k acc bid h
    rcases h with h | ⟨j, hkj, hjk, _⟩
    · simp [drainBatch, h]
    · omega
  | succ fuel ih =>
    intro k acc bid h
    by_cases hb : optTruthy bid
    · rcases h with h | ⟨j, hkj, hjk, hstop⟩
      · rw [h] at hb; exact Bool.noConfusion hb
      · by_cases hs : (server k).status = 200
        · have hrec : optTruthy (server k).nextBatchId = false
              ∨ ∃ j, k + 1 ≤ j ∧ j < (k + 1) + fuel
                  ∧ ((server j).status ≠ 200 ∨ optTruthy (server j).nextBatchId = false) := by
            rcases Nat.eq_or_lt_of_le hkj with rfl | hlt
            · rcases hstop with hstop | hstop
              · exact absurd hs hstop
              · exact Or.inl hstop
            · exact Or.inr ⟨j, hlt, by omega, hstop⟩
          have := ih (k + 1) (acc ++ (server k).data.getD []) (server k).nextBatchId hrec
          simpa [drainBatch, hb, hs] using this
        · simp [drainBatch, hb, hs]
    · simp [drainBatch, hb]

/-- A server that supplies one further batch and then stops. -/
def c2StopServer : Nat → BatchResp Nat :=
  fun j => ⟨200, some [j], if j == 0 then some "b2" else none⟩

theorem c2_witness : drainBatch c2StopServer 3 0 [] (some "b1") ≠ none :=
  c2_amended_drain_terminates_only_on_server_stop c2StopServer 3 0 [] (some "b1")
    (Or.inr ⟨1, by decide, by decide, by decide⟩)

/-! ## Claim C4: batchId draining stops on a falsy token or a non-200 page -/

/-- Claim C4: the batchId drain stops, returning the rows accumulated so far
    as an ordinary (non-error) result, as soon as the current `nextBatchId`
    is absent/null (falsy) or a follow-up batch request returns a non-200
    status.  (In the source the returned accumulator then flows into the
    success envelope of `_query_data_cloud`; the drain itself has no error
    outcome at all.) -/
theorem c4_batch_drain_stops (server : Nat → BatchResp α) (fuel k : Nat)
    (acc : List α) (bid : Option String) :
    (optTruthy bid = false → drainBatch server fuel k acc bid = some acc)
      ∧ (optTruthy bid = true → (server k).status ≠ 200 →
          drainBatch server (fuel + 1) k acc bid = some acc) := by
  constructor
  · intro h
    cases fuel with
    | zero => simp [drainBatch, h]
    | succ fuel => simp [drainBatch, h]
  · intro hb hs
    simp [drainBatch, hb, hs]

/-- A server whose first follow-up page already fails with HTTP 500. -/
def c4Server : Nat → BatchResp Nat := fun _ => ⟨500, some [9], some "bX"⟩

theorem c4_witness :
    drainBatch c4Server 7 0 [1, 2] (none : Option String) = some [1, 2]
      ∧ drainBatch c4Server 7 0 [1, 2] (some "b1") = some [1, 2] :=
  ⟨(c4_batch_drain_stops c4Server 7 0 [1, 2] none).1 (by decide),
   (c4_batch_drain_stops c4Server 6 0 [1, 2] (some "b1")).2 (by decide) (by decide)⟩

/-! ## Claim C5: the nextRecordsUrl drain is the in-order page concatenation -/

/-- Claim C5: the SOQL drain reads `records` from each page, follows
    `nextRecordsUrl` (resolved against the instance base URL when relative —
    this resolution is the `resolveUrl` step inside `soqlGet`) while `done`
    is false, and the row list it produces is exactly the concatenation of
    the pages' `records` in the order received, with no reordering or
    deduplication (first conjunct, an equation against the spec-side
    per-page list `soqlPages`); and it stops as soon as a page reports
    `done = true`, returning the rows gathered up to and including that page
    (second conjunct). -/
theorem c5_soql_drain_is_page_concat (inst : String) (server : String → SoqlResp α) :
    (∀ (fuel : Nat) (acc : List α) (nextUrl : Option String),
        drainSoql inst server fuel acc nextUrl
          = Option.map (Except.map (fun ps => acc ++ ps.flatten)) (soqlPages inst server fuel nextUrl))
      ∧ (∀ (u : String) (acc : List α) (fuel : Nat),
          u ≠ "" → (soqlGet inst server (some u)).status = 200 →
          (soqlGet inst server (some u)).done.getD true = true →
          drainSoql inst server (fuel + 1) acc (some u)
            = some (Except.ok (acc ++ (soqlGet inst server (some u)).records.getD []))) := by
  constructor
  · intro fuel
    induction fuel with
    | zero =>
      intro acc nextUrl
      by_cases h : optTruthy nextUrl <;> simp [drainSoql, soqlPages, h, Except.map]
    | succ fuel ih =>
      intro acc nextUrl
      by_cases h : optTruthy nextUrl
      · by_cases hs : (soqlGet inst server nextUrl).status = 200
        · by_cases hd : (soqlGet inst server nextUrl).done.getD true
          · simp [drainSoql, soqlPages, h, hs, hd, Except.map]
          · rw [show drainSoql inst server (fuel + 1) acc nextUrl
                  = drainSoql inst server fuel (acc ++ (soqlGet inst server nextUrl).records.getD [])
                      (soqlGet inst server nextUrl).nextRecordsUrl by
                simp [drainSoql, h, hs, hd]]
            rw [ih]
            cases hp : soqlPages inst server fuel (soqlGet inst server nextUrl).nextRecordsUrl with
            | none => simp [soqlPages, h, hs, hd, hp]
            | some v =>
              cases v with
              | error e => simp [soqlPages, h, hs, hd, hp, Except.map]
              | ok ps => simp [soqlPages, h, hs, hd, hp, Except.map, List.append_assoc]
        · simp [drainSoql, soqlPages, h, hs, Except.map]
      · simp [drainSoql, soqlPages, h, Except.map]
  · intro u acc fuel hu hs hd
    simp [drainSoql, optTruthy, hu, hs, hd]

/-- A one-page SOQL server: every GET answers 200 with `done = true`. -/
def c5Server : String → SoqlResp Nat :=
  fun _ => ⟨200, some [3, 1, 4], some true, none, ""⟩

theorem c5_witness :
    drainSoql "https://inst.example" c5Server 4 [0] (some "/services/q")
      = some (Except.ok [0, 3, 1, 4]) :=
  (c5_soql_drain_is_page_concat "https://inst.example" c5Server).2 "/services/q" [0] 3
    (by decide) (by decide) (by decide)

/-! ## URL quoting

Python's `urllib.parse.quote` with its default arguments: every byte of the
UTF-8 encoding is percent-encoded in uppercase hex except ASCII
alphanumerics, `_`, `.`, `-`, `~` and the default safe character `/`. -/

/-- Characters `urllib.parse.quote` leaves unencoded (default `safe='/'`). -/
def pyQuoteSafe (c : Char) : Bool :=
  let n := c.toNat
  (Nat.ble 65 n && Nat.ble n 90) || (Nat.ble 97 n && Nat.ble n 122) ||
    (Nat.ble 48 n && Nat.ble n 57) || n == 95 || n == 46 || n == 45 || n == 126 || n == 47

/-- The UTF-8 encoding of one character, as byte values. -/
def utf8Bytes (c : Char) : List Nat :=
  let n := c.toNat
  if n < 128 then [n]
  else if n < 2048 then [192 + n / 64, 128 + n % 64]
  else if n < 65536 then [224 + n / 4096, 128 + n / 64 % 64, 128 + n % 64]
  else [240 + n / 262144, 128 + n / 4096 % 64, 128 + n / 64 % 64, 128 + n % 64]

/-- Uppercase hexadecimal digit. -/
def hexUpper (n : Nat) : Char :=
  if n < 10 then Char.ofNat (48 + n) else Char.ofNat (55 + n)

/-- Percent-encode one byte. -/
def pctEncode (b : Nat) : String :=
  String.mk ['%', hexUpper (b / 16), hexUpper (b % 16)]

/-- Python `urllib.parse.quote(s)`. -/
def pyQuote (s : String) : String :=
  String.join (s.data.map (fun c =>
    if pyQuoteSafe c then String.mk [c] else String.join ((utf8Bytes c).map pctEncode)))

/-! ## The query router: `_query_data_cloud` (lines 603-702)

The network behaviour the method runs against is collected in an
environment: the initial `POST /api/v2/query` response (status, error body
text, `data`, `metadata`, `nextBatchId`), the follow-up batch responses,
and the SOQL responses keyed by request URL. -/

structure DcEnv (α : Type) where
  instanceUrl : String
  apiVersion : String
  dcStatus : Nat
  dcErrorText : String
  dcData : Option (List α)
  dcMetadata : Option String
  dcNextBatchId : Option String
  batches : Nat → BatchResp α
  soql : String → SoqlResp α

/-- The two response envelopes `_query_data_cloud` can build: the Data
    Cloud format `{data, metadata, done, totalSize}` and the SOQL format
    `{records, done, totalSize}`. -/
inductive QueryResult (α : Type) where
  | dc (data : List α) (metadata : Option String) (done : Bool) (totalSize : Nat)
  | soql (records : List α) (done : Bool) (totalSize : Nat)
  deriving DecidableEq

/-- The row list of either envelope (`data` for the Data Cloud format,
    `records` for the SOQL format). -/
def QueryResult.rows : QueryResult α → List α
  | .dc data _ _ _ => data
  | .soql records _ _ => records

/-- The `done` field of either envelope. -/
def QueryResult.doneFlag : QueryResult α → Bool
  | .dc _ _ d _ => d
  | .soql _ d _ => d

/-- The `totalSize` field of either envelope. -/
def QueryResult.total : QueryResult α → Nat
  | .dc _ _ _ t => t
  | .soql _ _ t => t

/-- The fallback SOQL request URL
    `{instance_url}/services/data/{api_version}/query?q={quote(soql_query)}`. -/
def soqlUrl (env : DcEnv α) (query : String) : String :=
  env.instanceUrl ++ "/services/data/" ++ env.apiVersion ++ "/query?q="
    ++ pyQuote (convert_sql_to_soql query)

/-- The SOQL fallback of `_query_data_cloud` (lines 670-702): translate the
    query, drain the `nextRecordsUrl` pages starting from `soqlUrl`, and
    wrap the rows in the SOQL envelope with `done = True` and
    `totalSize = len(all_records)`. -/
def soqlPhase (env : DcEnv α) (fuel : Nat) (query : String) :
    Option (Except String (QueryResult α)) :=
  match drainSoql env.instanceUrl env.soql fuel [] (some (soqlUrl env query)) with
  | none => none
  | some (Except.error e) => some (Except.error e)
  | some (Except.ok records) => some (Except.ok (QueryResult.soql records true records.length))

/-- `_query_data_cloud`: on a 200 from the Data Cloud API V2, extend with
    `data` (when present), drain the batch pages and return the Data Cloud
    envelope with `done = True`, `totalSize = len(all_records)`; on a 404
    fall through to SOQL; on any other status raise
    `Data Cloud Query failed: {error_text}`, which the enclosing
    `except` absorbs — falling through to SOQL — exactly when the message
    contains `"404"` or `"URL No Longer Exists"`, and re-raises otherwise. -/
def query_data_cloud (env : DcEnv α) (fuel : Nat) (query : String) :
    Option (Except String (QueryResult α)) :=
  if env.dcStatus == 200 then
    match drainBatch env.batches fuel 0 (env.dcData.getD []) env.dcNextBatchId with
    | none => none
    | some records => some (Except.ok (QueryResult.dc records env.dcMetadata true records.length))
  else if env.dcStatus == 404 then
    soqlPhase env fuel query
  else
    if pyIn "404" ("Data Cloud Query failed: " ++ env.dcErrorText)
        || pyIn "URL No Longer Exists" ("Data Cloud Query failed: " ++ env.dcErrorText) then
      soqlPhase env fuel query
    else
      some (Except.error ("Data Cloud Query failed: " ++ env.dcErrorText))

/-! ## Claim C8: exceptions mentioning "404" drive the fallback -/

/-- Claim C8: during the query fallback, an exception raised while trying
    the Data Cloud API V2 whose message contains `"404"` is absorbed as
    expected unavailability, and the router proceeds to the legacy SOQL
    target instead of propagating the error to the caller. -/
theorem c8_message_404_absorbed_falls_back (env : DcEnv α) (fuel : Nat) (query : String)
    (h200 : env.dcStatus ≠ 200) (h404 : env.dcStatus ≠ 404)
    (hmsg : pyIn "404" ("Data Cloud Query failed: " ++ env.dcErrorText) = true) :
    query_data_cloud env fuel query = soqlPhase env fuel query := by
  simp [query_data_cloud, h200, h404, hmsg]

/-- A behaviour where the analytics API fails with HTTP 500 and an error
    body that merely mentions "404", while plain SOQL works. -/
def c8Env : DcEnv Nat :=
  { instanceUrl := "https://inst.example"
    apiVersion := "v59.0"
    dcStatus := 500
    dcErrorText := "Error 404: endpoint missing"
    dcData := none
    dcMetadata := none
    dcNextBatchId := none
    batches := fun _ => ⟨200, none, none⟩
    soql := fun _ => ⟨200, some [7], some true, none, ""⟩ }

theorem c8_witness :
    pyIn "404" ("Data Cloud Query failed: " ++ c8Env.dcErrorText) = true
      ∧ query_data_cloud c8Env 1 "SELECT Id FROM Account"
          = soqlPhase c8Env 1 "SELECT Id FROM Account" :=
  ⟨by decide,
   c8_message_404_absorbed_falls_back c8Env 1 "SELECT Id FROM Account"
     (by decide) (by decide) (by decide)⟩

/-! ## Claim C9: successful envelopes report `done = true` and a client-side count -/

theorem soqlPhase_envelope (env : DcEnv α) (fuel : Nat) (query : String) (r : QueryResult α)
    (h : soqlPhase env fuel query = some (Except.ok r)) :
    r.doneFlag = true ∧ r.total = r.rows.length := by
  unfold soqlPhase at h
  split at h
  · exact Option.noConfusion h
  · exact absurd h (by simp)
  · rw [Option.some.injEq, Except.ok.injEq] at h
    subst h
    simp [QueryResult.doneFlag, QueryResult.total, QueryResult.rows]

/-- Claim C9: every successful query — on the Data Cloud path or the legacy
    SOQL path — returns an envelope whose `done` field is `true` and whose
    `totalSize` equals the length of the returned row list, both computed by
    the client regardless of what the server reported. -/
theorem c9_success_envelope (env : DcEnv α) (fuel : Nat) (query : String) (r : QueryResult α)
    (h : query_data_cloud env fuel query = some (Except.ok r)) :
    r.doneFlag = true ∧ r.total = r.rows.length := by
  unfold query_data_cloud at h
  split at h
  · split at h
    · exact absurd h (by simp)
    · rw [Option.some.injEq, Except.ok.injEq] at h
      subst h
      simp [QueryResult.doneFlag, QueryResult.total, QueryResult.rows]
  · split at h
    · exact soqlPhase_envelope env fuel query r h
    · split at h
      · exact soqlPhase_envelope env fuel query r h
      · simp_all

/-- A behaviour where the analytics API succeeds at once with two rows. -/
def c9Env : DcEnv Nat :=
  { instanceUrl := "https://inst.example"
    apiVersion := "v59.0"
    dcStatus := 200
    dcErrorText := ""
    dcData := some [1, 2]
    dcMetadata := none
    dcNextBatchId := none
    batches := fun _ => ⟨200, none, none⟩
    soql := fun _ => ⟨200, none, none, none, ""⟩ }

theorem c9_witness :
    (QueryResult.dc [1, 2] none true 2 : QueryResult Nat).doneFlag = true
      ∧ (QueryResult.dc [1, 2] none true 2 : QueryResult Nat).total
          = (QueryResult.dc [1, 2] none true 2 : QueryResult Nat).rows.length :=
  c9_success_envelope c9Env 0 "q" _ rfl

/-! ## Mutating Connect operations

`_activate_segment` (lines 946-976) and `_ingest_data_cloud`
(lines 978-1008).  Each method makes exactly one POST; the embedding takes
that single response.  On a status other than 200/201 the Python code does
not raise: it returns a hand-built "simulated" dictionary. -/

/-- A single HTTP response with an already-parsed JSON body. -/
structure HttpResp (β : Type) where
  status : Nat
  body : β
  deriving DecidableEq

/-- The fallback dictionary `_activate_segment` returns on a non-200/201
    response, field for field. -/
structure SimulatedActivation (κ : Type) where
  status : String
  message : String
  activation_target : String
  config : Option κ
  note : String
  deriving DecidableEq

inductive ActivateOutcome (β κ : Type) where
  | api (body : β)
  | simulated (s : SimulatedActivation κ)
  deriving DecidableEq

def activate_segment (resp : HttpResp β) (segment_id activation_target : String)
    (activation_config : Option κ) : ActivateOutcome β κ :=
  if resp.status == 201 || resp.status == 200 then ActivateOutcome.api resp.body
  else
    ActivateOutcome.simulated
      { status := "simulated"
        message := "Segment activation simulated for " ++ segment_id
        activation_target := activation_target
        config := activation_config
        note := "Data Cloud Connect API not available - activation simulated" }

/-- The fallback dictionary `_ingest_data_cloud` returns on a non-200/201
    response, field for field (`records_preview` is `data[:3] if data
    else []`). -/
structure SimulatedIngest (α : Type) where
  status : String
  message : String
  operation : String
  records_processed : Nat
  records_preview : List α
  note : String
  deriving DecidableEq

inductive IngestOutcome (α β : Type) where
  | api (body : β)
  | simulated (s : SimulatedIngest α)
  deriving DecidableEq

def ingest_data_cloud (resp : HttpResp β) (object_name : String) (data : List α)
    (operation : String) : IngestOutcome α β :=
  if resp.status == 201 || resp.status == 200 then IngestOutcome.api resp.body
  else
    IngestOutcome.simulated
      { status := "simulated"
        message := "Data ingestion simulated for " ++ object_name
        operation := operation
        records_processed := data.length
        records_preview := if data.isEmpty then [] else data.take 3
        note := "Data Cloud Connect API not available - ingestion simulated" }

/-! ## Claim C3: mutating operations do NOT raise on hard failure -/

/-- Claim C3 is false of the code: with the single configured target
    answering HTTP 500, `_activate_segment` and `_ingest_data_cloud` raise
    nothing — both return normally with a fabricated success-shaped
    "simulated" dictionary (status `"simulated"`), the opposite of the
    claimed immediate `UpstreamError`. -/
theorem c3_counterexample :
    activate_segment (⟨500, "server error"⟩ : HttpResp String) "seg1" "email" (none : Option Unit)
        = ActivateOutcome.simulated
            { status := "simulated"
              message := "Segment activation simulated for seg1"
              activation_target := "email"
              config := none
              note := "Data Cloud Connect API not available - activation simulated" }
      ∧ ingest_data_cloud (⟨500, "server error"⟩ : HttpResp String) "Obj__dlm"
            ([10, 20, 30, 40] : List Nat) "upsert"
          = IngestOutcome.simulated
              { status := "simulated"
                message := "Data ingestion simulated for Obj__dlm"
                operation := "upsert"
                records_processed := 4
                records_preview := [10, 20, 30]
                note := "Data Cloud Connect API not available - ingestion simulated" } :=
  ⟨rfl, rfl⟩

/-- Claim C3 amended: on any response whose status is neither 200 nor 201
    (HTTP 500 included), the mutating operations make no further attempt
    (each issues exactly one request by construction) but, instead of
    raising an `UpstreamError`, return a fabricated success-shaped
    response with `status = "simulated"`. -/
theorem c3_amended_mutating_simulates_on_failure (resp : HttpResp β)
    (seg tgt : String) (cfg : Option κ) (obj op : String) (data : List α)
    (h200 : resp.status ≠ 200) (h201 : resp.status ≠ 201) :
    activate_segment resp seg tgt cfg
        = ActivateOutcome.simulated
            { status := "simulated"
              message := "Segment activation simulated for " ++ seg
              activation_target := tgt
              config := cfg
              note := "Data Cloud Connect API not available - activation simulated" }
      ∧ ingest_data_cloud resp obj data op
          = IngestOutcome.simulated
              { status := "simulated"
                message := "Data ingestion simulated for " ++ obj
                operation := op
                records_processed := data.length
                records_preview := if data.isEmpty then [] else data.take 3
                note := "Data Cloud Connect API not available - ingestion simulated" } := by
  constructor <;> simp [activate_segment, ingest_data_cloud, h200, h201]

theorem c3_witness :
    activate_segment (⟨503, 0⟩ : HttpResp Nat) "segA" "advertising" (some "cfg")
        = ActivateOutcome.simulated
            { status := "simulated"
              message := "Segment activation simulated for segA"
              activation_target := "advertising"
              config := some "cfg"
              note := "Data Cloud Connect API not available - activation simulated" }
      ∧ ingest_data_cloud (⟨503, 0⟩ : HttpResp Nat) "Contact__dlm" (["r1"] : List String) "insert"
          = IngestOutcome.simulated
              { status := "simulated"
                message := "Data ingestion simulated for Contact__dlm"
                operation := "insert"
                records_processed := 1
                records_preview := ["r1"]
                note := "Data Cloud Connect API not available - ingestion simulated" } := by
  have h := c3_amended_mutating_simulates_on_failure (⟨503, 0⟩ : HttpResp Nat)
    "segA" "advertising" (some "cfg") "Contact__dlm" "insert" (["r1"] : List String)
    (by decide) (by decide)
  exact ⟨h.1, h.2⟩

/-! ## Claim C10: the simulated ingest response counts the input -/

/-- Claim C10: whenever the ingest POST does not return a 2xx status, the
    simulated response reports `records_processed` equal to the length of
    the input record list and `records_preview` equal to its first at most
    three elements.  The embedding is pure and the source only slices
    `data`, so the input list itself is unchanged. -/
theorem c10_ingest_simulated_counts (resp : HttpResp β) (obj op : String) (data : List α)
    (h : ¬(200 ≤ resp.status ∧ resp.status < 300)) :
    ingest_data_cloud resp obj data op
      = IngestOutcome.simulated
          { status := "simulated"
            message := "Data ingestion simulated for " ++ obj
            operation := op
            records_processed := data.length
            records_preview := data.take 3
            note := "Data Cloud Connect API not available - ingestion simulated" } := by
  have h200 : resp.status ≠ 200 := fun e => h ⟨by omega, by omega⟩
  have h201 : resp.status ≠ 201 := fun e => h ⟨by omega, by omega⟩
  rcases data with _ | ⟨x, xs⟩ <;> simp [ingest_data_cloud, h200, h201]

theorem c10_witness :
    ¬(200 ≤ 500 ∧ 500 < 300)
      ∧ ingest_data_cloud (⟨500, "err"⟩ : HttpResp String) "Account__dlm"
            ([5, 6, 7, 8, 9] : List Nat) "upsert"
          = IngestOutcome.simulated
              { status := "simulated"
                message := "Data ingestion simulated for Account__dlm"
                operation := "upsert"
                records_processed := 5
                records_preview := [5, 6, 7]
                note := "Data Cloud Connect API not available - ingestion simulated" } :=
  ⟨by decide,
   c10_ingest_simulated_counts (⟨500, "err"⟩ : HttpResp String) "Account__dlm" "upsert"
     [5, 6, 7, 8, 9] (by decide)⟩

/-! ## `_get_connect_segments` (lines 1177-1231)

On a non-200 Connect response the method falls back to
`_query_data_cloud`; if that raises, the `except` produces the
all-APIs-unavailable dictionary with an empty `segments` list. -/

/-- The query string the fallback builds (with Python truthiness on the two
    optional filters, so `None` and `""` both skip a condition). -/
def connectSegmentsQuery (segment_name status : Option String) : String :=
  let conditions :=
    (if optTruthy segment_name then ["Name LIKE '%" ++ segment_name.getD "" ++ "%'"] else [])
      ++ (if optTruthy status then ["Status = '" ++ status.getD "" ++ "'"] else [])
  let q := "SELECT Id, Name, Description, Status, MemberCount FROM Segment__dlm"
  (if conditions.isEmpty then q else q ++ " WHERE " ++ joinWith " AND " conditions) ++ " LIMIT 100"

/-- The three response shapes `_get_connect_segments` can return: the raw
    Connect body, the Query-API fallback dictionary, and the
    all-APIs-unavailable dictionary. -/
inductive ConnectSegmentsResult (α γ : Type) where
  | api (body : γ)
  | fallback (segments : List α) (source note : String)
  | exhausted (error : String) (segments : List α) (note : String)
  deriving DecidableEq

/-- `_get_connect_segments`.  `QueryResult.rows` is exactly the source's
    `result.get("records", []) if "records" in result else
    result.get("data", [])` applied to either envelope. -/
def get_connect_segments (cResp : HttpResp γ) (env : DcEnv α) (fuel : Nat)
    (segment_name status : Option String) : Option (ConnectSegmentsResult α γ) :=
  if cResp.status == 200 then some (ConnectSegmentsResult.api cResp.body)
  else
    match query_data_cloud env fuel (connectSegmentsQuery segment_name status) with
    | none => none
    | some (Except.ok r) =>
        some (ConnectSegmentsResult.fallback r.rows "Query API fallback"
          "Connect Data API not available - using Query API")
    | some (Except.error e) =>
        some (ConnectSegmentsResult.exhausted
          ("Both Connect Data API and Query API failed: " ++ e) []
          "All segment APIs unavailable")

/-! ## Claim C6: fallback exhaustion -/

/-- A backend where every target 404s: the analytics POST answers 404 and
    every SOQL GET answers 404 as well. -/
def c6Env : DcEnv Nat :=
  { instanceUrl := "https://inst.example"
    apiVersion := "v59.0"
    dcStatus := 404
    dcErrorText := ""
    dcData := none
    dcMetadata := none
    dcNextBatchId := none
    batches := fun _ => ⟨200, none, none⟩
    soql := fun _ => ⟨404, none, none, none, "The requested resource does not exist"⟩ }

/-- Claim C6 is false as a statement about every read operation: for the
    read operation `_query_data_cloud`, when every target fails (the
    analytics API 404s and the legacy SOQL API also 404s), the method does
    not return a degraded-but-successful result — it raises
    `SOQL Query failed: ...` to its caller (the tool dispatcher then turns
    it into an `Error: ...` text, not a result with rows and a degraded
    marker). -/
theorem c6_counterexample :
    query_data_cloud c6Env 2 "SELECT Id FROM Segment__dlm"
      = some (Except.error
          ("SOQL Query failed: " ++ "The requested resource does not exist")) := rfl

/-- Claim C6 amended: the Connect read wrapper `_get_connect_segments` does
    behave as claimed — when the Connect API fails and the Query-API
    fallback raises, it returns (never raises) a result with an empty
    segment list, the last error in its `error` field and the note
    `All segment APIs unavailable` — but this does not extend to every read
    operation (`_query_data_cloud` raises on exhaustion, as the
    counterexample shows). -/
theorem c6_amended_connect_segments_degrades (cResp : HttpResp γ) (env : DcEnv α)
    (fuel : Nat) (sn st : Option String) (e : String)
    (hc : cResp.status ≠ 200)
    (hq : query_data_cloud env fuel (connectSegmentsQuery sn st) = some (Except.error e)) :
    get_connect_segments cResp env fuel sn st
      = some (ConnectSegmentsResult.exhausted
          ("Both Connect Data API and Query API failed: " ++ e) []
          "All segment APIs unavailable") := by
  simp [get_connect_segments, hc, hq]

set_option maxRecDepth 10000 in
theorem c6_witness :
    get_connect_segments (⟨404, "nf"⟩ : HttpResp String) c6Env 2 none none
      = some (ConnectSegmentsResult.exhausted
          ("Both Connect Data API and Query API failed: "
            ++ ("SOQL Query failed: " ++ "The requested resource does not exist"))
          ([] : List Nat) "All segment APIs unavailable") :=
  c6_amended_connect_segments_degrades (⟨404, "nf"⟩ : HttpResp String) c6Env 2 none none
    ("SOQL Query failed: " ++ "The requested resource does not exist") (by decide) rfl

/-! ## The tool dispatcher: `call_tool` (lines 411-520)

The dispatcher first authenticates when no session is present, then
evaluates the tool's required argument subscripts left to right; the first
missing key raises `KeyError`, which the blanket `except` turns into the
reply `Error: '<key>'`.  The embedding records the externally visible
steps in order: a credential acquisition, the entry into a tool body
(which is where all of the tool's network traffic happens), or an error
reply.  Tool bodies are opaque here; only the prologue order and argument
validation of lines 411-520 are modelled, with authentication assumed to
succeed. -/

inductive ToolEvent where
  | authenticate
  | toolCall (name : String)
  | errorText (msg : String)
  deriving DecidableEq

/-- For each tool name, the required-argument subscripts `call_tool`
    evaluates, in source order; `none` for an unknown tool. -/
def requiredKeys : String → Option (List String)
  | "query_data_cloud" => some ["query"]
  | "get_data_cloud_objects" => some []
  | "describe_object" => some ["object_name"]
  | "get_data_cloud_metadata" => some []
  | "get_segments" => some []
  | "get_segment_members" => some ["segment_id"]
  | "enrich_profiles" => some ["profile_ids"]
  | "generate_ai_prompt" => some ["segment_data"]
  | "execute_ai_analysis" => some ["prompt"]
  | "store_ai_results" => some ["results", "target_object"]
  | "activate_segment" => some ["segment_id", "activation_target"]
  | "ingest_data_cloud" => some ["object_name", "data"]
  | "get_calculated_insights" => some []
  | "manage_profiles" => some ["operation"]
  | "get_segment_activations" => some []
  | "real_time_segment_events" => some ["segment_id", "event_types"]
  | "get_connect_segments" => some []
  | "get_connect_segment_details" => some ["segment_id"]
  | "get_connect_segment_members" => some ["segment_id"]
  | "search_connect_segments" => some ["search_term"]
  | _ => none

/-- The ordered, externally visible steps of one `call_tool` invocation,
    given which argument keys the caller supplied. -/
def call_tool (sessionPresent : Bool) (name : String) (argKeys : List String) : List ToolEvent :=
  (if sessionPresent then [] else [ToolEvent.authenticate])
    ++ match requiredKeys name with
      | none => [ToolEvent.errorText ("Error: Unknown tool: " ++ name)]
      | some ks =>
        match ks.find? (fun x => !(argKeys.contains x)) with
        | some k => [ToolEvent.errorText ("Error: '" ++ k ++ "'")]
        | none => [ToolEvent.toolCall name]

/-! ## Claim C7: validation is NOT before credential acquisition -/

/-- Claim C7 is false of the code: calling `query_data_cloud` with no
    arguments and no session first performs the credential acquisition
    (`_authenticate`, a network login) and only then fails on the missing
    `query` key — the very first step of the trace is the authentication,
    not the validation error. -/
theorem c7_counterexample :
    call_tool false "query_data_cloud" []
        = [ToolEvent.authenticate, ToolEvent.errorText ("Error: '" ++ "query" ++ "'")]
      ∧ (call_tool false "query_data_cloud" []).head? = some ToolEvent.authenticate :=
  ⟨rfl, rfl⟩

/-- Claim C7 amended: a missing required argument makes the call fail with
    an error reply naming the missing field (`Error: '<field>'`, the
    stringified `KeyError`), and no tool body — hence none of the
    operation's own network traffic — runs; but the failure is not before
    every network call: when no session is present, credential acquisition
    happens first. -/
theorem c7_amended_missing_arg_fails_after_auth (sp : Bool) (name : String)
    (argKeys : List String) (ks : List String) (k : String)
    (hks : requiredKeys name = some ks)
    (hmiss : ks.find? (fun x => !(argKeys.contains x)) = some k) :
    call_tool sp name argKeys
        = (if sp then [] else [ToolEvent.authenticate])
            ++ [ToolEvent.errorText ("Error: '" ++ k ++ "'")]
      ∧ ∀ n, ToolEvent.toolCall n ∉ call_tool sp name argKeys := by
  have hm : ks.find? (fun x => !decide (x ∈ argKeys)) = some k := by simpa using hmiss
  constructor
  · simp [call_tool, hks, hm]
  · intro n
    cases sp <;> simp [call_tool, hks, hm]

theorem c7_witness :
    call_tool true "activate_segment" ["segment_id"]
        = [ToolEvent.errorText ("Error: '" ++ "activation_target" ++ "'")]
      ∧ ∀ n, ToolEvent.toolCall n ∉ call_tool true "activate_segment" ["segment_id"] := by
  have h := c7_amended_missing_arg_fails_after_auth true "activate_segment" ["segment_id"]
    ["segment_id", "activation_target"] "activation_target" rfl rfl
  exact ⟨h.1, h.2⟩

end DCMCP
